import Mathlib

/-!
A verification development for a small deployment smoke-test harness
consisting of two Python scripts: `test_deployment.py` (HTTP endpoint
probes, environment runners, summary aggregation) and
`validate_deployment.py` (static artifact validation).

The scripts are embedded shallowly: the network, the wall clock and the
file system are explicit components of a `World` state threaded through
the functions; JSON values are a small inductive type; every raisable
operation is modelled with `Except`.  Print statements of the scripts are
pure console I/O and are not part of the embedding, except that the
branch conditions selecting the final guidance text of the summary (and
the guidance lines themselves) are modelled, since the specification
makes claims about them.
-/

/-- JSON values, as returned by `response.json()` / `json.load`. -/
inductive Json where
  | null
  | bool (b : Bool)
  | num (n : Int)
  | str (s : String)
  | arr (elems : List Json)
  | obj (fields : List (String × Json))

/-- The file system visible to the scripts: a map from path to text
content, plus a counter used to generate temporary-file names
(`tempfile.NamedTemporaryFile`). -/
structure FSState where
  files : List (String × String)
  tempCounter : Nat

/-- Content lookup, as `open(path).read()` succeeding. -/
def fsRead (fs : FSState) (p : String) : Option String :=
  (fs.files.find? (fun e => e.1 == p)).map (fun e => e.2)

/-- Existence check, as `os.path.exists`. -/
def fsExists (fs : FSState) (p : String) : Bool :=
  (fsRead fs p).isSome

/-- Writing a file: the new content replaces any previous entry. -/
def fsWrite (fs : FSState) (p c : String) : FSState :=
  { fs with files := (p, c) :: fs.files.filter (fun e => e.1 != p) }

/-- Removing a file from the file system. -/
def fsRemove (fs : FSState) (p : String) : FSState :=
  { fs with files := fs.files.filter (fun e => e.1 != p) }

/-- Model of `os.unlink`: raises `FileNotFoundError` when the path is absent. -/
def os_unlink (fs : FSState) (p : String) : Except String FSState :=
  if fsExists fs p then Except.ok (fsRemove fs p)
  else Except.error ("FileNotFoundError: " ++ p)

/-- One file part of a multipart POST:
field name, file name, content, media type. -/
structure FilePart where
  field : String
  filename : String
  content : String
  mime : String

/-- An HTTP request issued by `requests.get` / `requests.post`,
including the timeout argument. -/
inductive HttpRequest where
  | get (url : String) (timeout : Nat)
  | post (url : String) (files : List FilePart) (data : List (String × String)) (timeout : Nat)

/-- What the network does with one request: either the call itself
raises (connection error, timeout, ...) with the stringified exception,
or a response arrives with a status code, a reason phrase and a body
whose JSON decoding either succeeds or raises `.error` with the
stringified decode exception. -/
inductive HttpOutcome where
  | exn (msg : String)
  | resp (statusCode : Nat) (reason : String) (body : Except String Json)

/-- Model of `requests.Response.raise_for_status`: raises `HTTPError` exactly for
status codes 400-599, with the client/server error message. -/
def raise_for_status (code : Nat) (reason url : String) : Except String Unit :=
  if 400 ≤ code ∧ code < 500 then
    Except.error (toString code ++ " Client Error: " ++ reason ++ " for url: " ++ url)
  else if 500 ≤ code ∧ code < 600 then
    Except.error (toString code ++ " Server Error: " ++ reason ++ " for url: " ++ url)
  else Except.ok ()

/-- The world the scripts run in: the network behaviour (response and
latency per request), the file system, a wall clock (`time.time`), and a
log of the HTTP calls issued so far (used to state sequencing facts). -/
structure World where
  net : HttpRequest → HttpOutcome
  lat : HttpRequest → Nat
  fs : FSState
  clock : Nat
  calls : List HttpRequest

/-- Issuing one blocking HTTP call: the wall clock advances by the
latency of the request and the call is appended to the log. -/
def httpCall (w : World) (req : HttpRequest) : HttpOutcome × World :=
  (w.net req,
   { w with clock := w.clock + w.lat req, calls := w.calls ++ [req] })

/-- The uniform result dictionary returned by every probe:
`status` is the value of the "status" key, `data`/`error` the
optional "data"/"error" keys. -/
structure ProbeResult where
  status : String
  data : Option Json
  error : Option String

/-- The fixed questions content written by `create_test_questions_file`
(test_deployment.py lines 16-23). -/
def questions_content : String :=
  "Analyze the GDP data from https://en.wikipedia.org/wiki/List_of_countries_by_GDP_(nominal)\n\nQuestions to answer:\n1. Which country has the highest GDP?\n2. What are the top 10 countries by GDP?\n3. What is the total GDP of the top 5 countries?\n4. Create a visualization showing GDP comparison of top 10 countries\n5. Which countries have GDP over $5 trillion?"

/-- The name `tempfile.NamedTemporaryFile` hands out for the n-th
temporary file. -/
def tmpPath (n : Nat) : String :=
  "/tmp/tmp" ++ toString n ++ ".txt"

/-- Embedding of `create_test_questions_file` (test_deployment.py lines 14-28):
creates a temporary text file holding the fixed questions content and
returns its path. -/
def create_test_questions_file (fs : FSState) : String × FSState :=
  (tmpPath fs.tempCounter,
   { fsWrite fs (tmpPath fs.tempCounter) questions_content with
       tempCounter := fs.tempCounter + 1 })

/-- Embedding of `test_health_endpoint` (test_deployment.py lines 30-41):
GET `<base>/health` with timeout 30; any exception in the try block is
caught and becomes an error result carrying the stringified exception. -/
def test_health_endpoint (base_url : String) (w : World) : ProbeResult × World :=
  let req := HttpRequest.get (base_url ++ "/health") 30
  let out := httpCall w req
  match out.1 with
  | HttpOutcome.exn e => (⟨"error", none, some e⟩, out.2)
  | HttpOutcome.resp code reason body =>
    match raise_for_status code reason (base_url ++ "/health") with
    | Except.error e => (⟨"error", none, some e⟩, out.2)
    | Except.ok _ =>
      match body with
      | Except.error e => (⟨"error", none, some e⟩, out.2)
      | Except.ok j => (⟨"success", some j, none⟩, out.2)

/-- Embedding of `test_capabilities_endpoint` (test_deployment.py lines 43-54):
GET `<base>/api/workflow-capabilities` with timeout 30; same
catch-all error handling as the health probe. -/
def test_capabilities_endpoint (base_url : String) (w : World) : ProbeResult × World :=
  let req := HttpRequest.get (base_url ++ "/api/workflow-capabilities") 30
  let out := httpCall w req
  match out.1 with
  | HttpOutcome.exn e => (⟨"error", none, some e⟩, out.2)
  | HttpOutcome.resp code reason body =>
    match raise_for_status code reason (base_url ++ "/api/workflow-capabilities") with
    | Except.error e => (⟨"error", none, some e⟩, out.2)
    | Except.ok _ =>
      match body with
      | Except.error e => (⟨"error", none, some e⟩, out.2)
      | Except.ok j => (⟨"success", some j, none⟩, out.2)

/-- The multipart POST issued by the main probe: one file field
`questions_txt` (file name `questions.txt`, media type text/plain) and
the two form fields, timeout 300. -/
def mainRequest (base_url : String) (content : String) : HttpRequest :=
  HttpRequest.post (base_url ++ "/api/")
    [⟨"questions_txt", "questions.txt", content, "text/plain"⟩]
    [("enable_iterative_reasoning", "false"), ("enable_logging", "true")]
    300

/-- The `finally` block of `test_main_api_endpoint`
(test_deployment.py lines 89-94): `os.unlink` wrapped in a
`try/except: pass`, so a deletion failure is swallowed. -/
def cleanupQuestionsFile (fs : FSState) (p : String) : FSState :=
  match os_unlink fs p with
  | Except.ok fs_cleaned => fs_cleaned
  | Except.error _ => fs

/-- Embedding of `test_main_api_endpoint` (test_deployment.py lines 56-94):
creates the questions file, opens it (raising inside the try block if it
were absent), POSTs it to `<base>/api/` with timeout 300, converts any
exception into an error result, and in all cases runs the cleanup
`finally` block before returning. -/
def test_main_api_endpoint (base_url : String) (w : World) : ProbeResult × World :=
  let pr := create_test_questions_file w.fs
  let w1 : World := { w with fs := pr.2 }
  let step : ProbeResult × World :=
    match fsRead w1.fs pr.1 with
    | none => (⟨"error", none, some ("FileNotFoundError: " ++ pr.1)⟩, w1)
    | some content =>
      let out := httpCall w1 (mainRequest base_url content)
      match out.1 with
      | HttpOutcome.exn e => (⟨"error", none, some e⟩, out.2)
      | HttpOutcome.resp code reason body =>
        match raise_for_status code reason (base_url ++ "/api/") with
        | Except.error e => (⟨"error", none, some e⟩, out.2)
        | Except.ok _ =>
          match body with
          | Except.error e => (⟨"error", none, some e⟩, out.2)
          | Except.ok j => (⟨"success", some j, none⟩, out.2)
  (step.1, { step.2 with fs := cleanupQuestionsFile step.2.fs pr.1 })

/-- The result bundle returned by an environment runner: the probe
results keyed `health` / `capabilities` / `main_api`, plus the
`duration` key present only in the Vercel variant. -/
structure EnvironmentBundle where
  health : ProbeResult
  capabilities : ProbeResult
  main_api : ProbeResult
  duration : Option Nat

/-- A value of the Python bundle dictionary: either a probe result
dictionary or the `duration` number. -/
inductive BundleEntry where
  | probe (p : ProbeResult)
  | num (n : Nat)

/-- Python `.values()` of the bundle dictionary, in insertion order. -/
def EnvironmentBundle.dictValues (b : EnvironmentBundle) : List BundleEntry :=
  [BundleEntry.probe b.health, BundleEntry.probe b.capabilities,
   BundleEntry.probe b.main_api] ++
    (match b.duration with
     | some d => [BundleEntry.num d]
     | none => [])

/-- The summary expression
`all(r["status"] == "success" for r in bundle.values() if isinstance(r, dict))`
(test_deployment.py lines 253 and 262). -/
def allDictSuccess (b : EnvironmentBundle) : Bool :=
  b.dictValues.all (fun e =>
    match e with
    | BundleEntry.probe p => p.status == "success"
    | BundleEntry.num _ => true)

/-- Embedding of `test_local_server` (test_deployment.py lines 96-145): runs the
health, capabilities and main probes, in that order, against
`http://localhost:8000` and returns the bundle without a duration. -/
def test_local_server (w : World) : EnvironmentBundle × World :=
  let health := test_health_endpoint "http://localhost:8000" w
  let cap := test_capabilities_endpoint "http://localhost:8000" health.2
  let api := test_main_api_endpoint "http://localhost:8000" cap.2
  (⟨health.1, cap.1, api.1, none⟩, api.2)

/-- Embedding of `test_vercel_deployment` (test_deployment.py lines 147-200): same
probe sequence against the given URL; `time.time()` is sampled
immediately before and after the main-probe call and the difference is
returned as `duration`. -/
def test_vercel_deployment (vercel_url : String) (w : World) : EnvironmentBundle × World :=
  let health := test_health_endpoint vercel_url w
  let cap := test_capabilities_endpoint vercel_url health.2
  let start_time := cap.2.clock
  let api := test_main_api_endpoint vercel_url cap.2
  let duration := api.2.clock - start_time
  (⟨health.1, cap.1, api.1, some duration⟩, api.2)

/-- The parsed command-line flags of `test_deployment.py`
(`--local`, `--vercel <url>`, `--both`). -/
structure Args where
  localFlag : Bool
  vercel : Option String
  both : Bool

/-- The `results` dictionary of `main`, keyed `local` / `vercel`. -/
structure Results where
  localRes : Option EnvironmentBundle := none
  vercelRes : Option EnvironmentBundle := none

/-- The hardcoded placeholder URL used by `--both`
(test_deployment.py line 231). -/
def example_url : String := "https://your-project-name.vercel.app"

/-- The `main` function of test_deployment.py (lines 202-271), up to
the summary (the name `main` is reserved in Lean):
builds the `results` dictionary.  With `--local` or `--both` the local
runner fills `results["local"]`; with `--vercel <url>` the remote runner
fills `results["vercel"]`; with `--both` a second remote run against the
placeholder URL is stored under the same `results["vercel"]` key. -/
def mainRun (args : Args) (w : World) : Results × World :=
  let s1 : Results × World :=
    if args.localFlag || args.both then
      let b := test_local_server w
      ({ localRes := some b.1 }, b.2)
    else ({}, w)
  let s2 : Results × World :=
    match args.vercel with
    | some url =>
      let b := test_vercel_deployment url s1.2
      ({ s1.1 with vercelRes := some b.1 }, b.2)
    | none => s1
  if args.both then
    let b := test_vercel_deployment example_url s2.2
    ({ s2.1 with vercelRes := some b.1 }, b.2)
  else s2

/-- The condition of the local next-steps branch (test_deployment.py
line 253): `"local" in results and all(...)`. -/
def localVerdict (results : Results) : Bool :=
  match results.localRes with
  | some b => allDictSuccess b
  | none => false

/-- First line printed by the successful local branch (line 254). -/
def local_success_line : String :=
  "✅ Local tests passed - ready for Vercel deployment"

/-- First line printed by the failing local branch (line 257). -/
def local_failure_line : String :=
  "❌ Local tests failed - fix issues before deploying"

/-- The next-steps guidance lines for the local environment
(test_deployment.py lines 252-259). -/
def next_steps_local_lines (results : Results) : List String :=
  if localVerdict results then
    [local_success_line,
     "   Run: deploy-vercel.bat (Windows) or deploy-vercel.sh (Linux/Mac)"]
  else
    [local_failure_line,
     "   Check dependencies: pip install -r requirements-vercel.txt",
     "   Check server: uvicorn api.index:app --reload"]

/-- The per-environment verdict for the Vercel bundle, when present
(test_deployment.py lines 261-262). -/
def vercelVerdict (results : Results) : Option Bool :=
  results.vercelRes.map allDictSuccess

/-- Whether the cold-start annotation of the summary is printed
(test_deployment.py lines 263-267): only inside the `vercel_success`
branch, and only when `results["vercel"].get("duration", 0) > 10`. -/
def coldStartNoted (results : Results) : Bool :=
  match results.vercelRes with
  | some b => allDictSuccess b && (b.duration.getD 0 > 10)
  | none => false

/-- Whether `needle` occurs as a contiguous run inside `haystack`. -/
def charsInfixOf (needle : List Char) : List Char → Bool
  | [] => needle.isPrefixOf []
  | c :: rest => needle.isPrefixOf (c :: rest) || charsInfixOf needle rest

/-- Python substring test `needle in haystack` on strings. -/
def strContains (haystack needle : String) : Bool :=
  charsInfixOf needle.data haystack.data

/-- Python membership `k in v` for a string `k` and a decoded JSON value
`v`: key lookup on a dict, element equality on a list, substring test on
a string; on a number, boolean or `None` it raises `TypeError`
(argument of type ... is not iterable), which `validate_vercel_files`
does not catch. -/
def pyIn (k : String) : Json → Except String Bool
  | Json.obj fields => Except.ok (fields.any (fun f => f.1 == k))
  | Json.arr elems =>
      Except.ok (elems.any (fun e =>
        match e with
        | Json.str s => s == k
        | _ => false))
  | Json.str s => Except.ok (strContains s k)
  | Json.num _ => Except.error "TypeError: argument of type int is not iterable"
  | Json.bool _ => Except.error "TypeError: argument of type bool is not iterable"
  | Json.null => Except.error "TypeError: argument of type NoneType is not iterable"

/-- The six required deployment files with their descriptions
(validate_deployment.py lines 14-21). -/
def required_files : List (String × String) :=
  [("vercel.json", "Vercel configuration"),
   ("api/index.py", "Main FastAPI serverless function"),
   ("requirements-vercel.txt", "Python dependencies for Vercel"),
   ("README-vercel.md", "Deployment documentation"),
   ("test-vercel.html", "Web testing interface"),
   ("example-questions.txt", "Example questions file")]

/-- The four import names scanned for in api/index.py
(validate_deployment.py line 54). -/
def required_imports : List String :=
  ["FastAPI", "UploadFile", "File", "HTTPException"]

/-- Outcome of the vercel.json configuration check: the three printed
diagnoses of validate_deployment.py lines 32-47. -/
inductive ConfigCheck where
  | fileNotFound
  | invalidJson (msg : String)
  | valid (hasBuildsAndRoutes : Bool)

/-- The vercel.json block of `validate_vercel_files`
(validate_deployment.py lines 32-47): the `try` catches only
`FileNotFoundError` and `json.JSONDecodeError`; the membership tests
`"builds" in config and "routes" in config` (short-circuited) can raise
an uncaught `TypeError` when the parsed value is not a container. -/
def configCheckOf (jsonLoad : String → Except String Json) (fs : FSState) :
    Except String ConfigCheck :=
  match fsRead fs "vercel.json" with
  | none => Except.ok ConfigCheck.fileNotFound
  | some text =>
    match jsonLoad text with
    | Except.error msg => Except.ok (ConfigCheck.invalidJson msg)
    | Except.ok config =>
      match pyIn "builds" config with
      | Except.error e => Except.error e
      | Except.ok b =>
        if b then
          match pyIn "routes" config with
          | Except.error e => Except.error e
          | Except.ok r => Except.ok (ConfigCheck.valid r)
        else Except.ok (ConfigCheck.valid false)

/-- The report assembled by one run of `validate_vercel_files`.  The
source only prints the diagnostic fields and returns the boolean; the
spec models the report as a first-class value, which we follow here.
`importCheck` is `none` when api/index.py could not be opened, otherwise
the accumulated `missing_imports` list. -/
structure ValidationReport where
  missing_files : List String
  configCheck : ConfigCheck
  importCheck : Option (List String)
  ready : Bool

/-- Embedding of `validate_vercel_files` (validate_deployment.py lines 9-86):
accumulates the missing required files, runs the config check (whose
`TypeError` would propagate, modelled as `Except.error`), scans
api/index.py for the four import names, and returns `False` when any
required file is missing, `True` otherwise. -/
def validate_vercel_files (jsonLoad : String → Except String Json) (fs : FSState) :
    Except String ValidationReport :=
  let missing_files := required_files.foldl
    (fun acc fd => if fsExists fs fd.1 then acc else acc ++ [fd.1]) []
  match configCheckOf jsonLoad fs with
  | Except.error e => Except.error e
  | Except.ok cc =>
    let importCheck :=
      match fsRead fs "api/index.py" with
      | none => none
      | some content =>
        some (required_imports.foldl
          (fun acc imp => if strContains content imp then acc else acc ++ [imp]) [])
    if missing_files.isEmpty then
      Except.ok ⟨missing_files, cc, importCheck, true⟩
    else
      Except.ok ⟨missing_files, cc, importCheck, false⟩

/-! ## Concrete fixtures used to evaluate the model on closed inputs -/

/-- An empty file system. -/
def fs0 : FSState := ⟨[], 0⟩

/-- A world in which every HTTP call raises a connection error. -/
def w0 : World :=
  ⟨fun _ => HttpOutcome.exn "Connection refused", fun _ => 0, fs0, 0, []⟩

/-- A small successful JSON response body. -/
def okBody : Json := Json.obj [("status", Json.str "completed")]

/-- A world in which every HTTP call returns 200 with a JSON body,
taking 42 time units. -/
def wOk : World :=
  ⟨fun _ => HttpOutcome.resp 200 "OK" (Except.ok okBody), fun _ => 42, fs0, 0, []⟩

/-- An all-success bundle carrying a 42-unit duration. -/
def bundleOk : EnvironmentBundle :=
  ⟨⟨"success", some okBody, none⟩, ⟨"success", some okBody, none⟩,
   ⟨"success", some okBody, none⟩, some 42⟩

/-- An all-success local bundle (no duration key). -/
def bundleLocalOk : EnvironmentBundle :=
  ⟨⟨"success", some okBody, none⟩, ⟨"success", some okBody, none⟩,
   ⟨"success", some okBody, none⟩, none⟩

/-- Results carrying only a successful Vercel bundle. -/
def resultsVercelOk : Results := ⟨none, some bundleOk⟩

/-- Results carrying only a successful local bundle. -/
def resultsLocalOk : Results := ⟨some bundleLocalOk, none⟩

/-- The behaviour of `json.load` on a file whose text is the valid JSON
document `5`: it parses to the integer 5. -/
def jsonLoadNum : String → Except String Json :=
  fun text =>
    if text == "5" then Except.ok (Json.num 5)
    else Except.error "Expecting value: line 1 column 1 (char 0)"

/-- The behaviour of `json.load` on a file whose text is the valid JSON
document `null`: it parses to `None`. -/
def jsonLoadNull : String → Except String Json :=
  fun text =>
    if text == "null" then Except.ok Json.null
    else Except.error "Expecting value: line 1 column 1 (char 0)"

/-- A `json.load` behaviour returning a configuration object that has
both `builds` and `routes` sections. -/
def jsonLoadObj : String → Except String Json :=
  fun _ => Except.ok (Json.obj [("builds", Json.arr []), ("routes", Json.arr [])])

/-- A file system in which all six required deployment files exist and
vercel.json holds the scalar JSON document `5`. -/
def fsScalarConfig : FSState :=
  ⟨[("vercel.json", "5"),
    ("api/index.py", "from fastapi import FastAPI, UploadFile, File, HTTPException"),
    ("requirements-vercel.txt", "fastapi"),
    ("README-vercel.md", "documentation"),
    ("test-vercel.html", "<html></html>"),
    ("example-questions.txt", "What is the GDP?")], 0⟩

/-- A file system in which all six required deployment files exist and
vercel.json holds the scalar JSON document `null`. -/
def fsNullConfig : FSState :=
  ⟨[("vercel.json", "null"),
    ("api/index.py", "from fastapi import FastAPI, UploadFile, File, HTTPException"),
    ("requirements-vercel.txt", "fastapi"),
    ("README-vercel.md", "documentation"),
    ("test-vercel.html", "<html></html>"),
    ("example-questions.txt", "What is the GDP?")], 0⟩

/-- A file system in which all six required deployment files exist and
vercel.json holds an object configuration. -/
def fsAllPresent : FSState :=
  ⟨[("vercel.json", "config"),
    ("api/index.py", "from fastapi import FastAPI, UploadFile, File, HTTPException"),
    ("requirements-vercel.txt", "fastapi"),
    ("README-vercel.md", "documentation"),
    ("test-vercel.html", "<html></html>"),
    ("example-questions.txt", "What is the GDP?")], 0⟩

/-- A file system missing api/index.py and test-vercel.html. -/
def fsMissingTwo : FSState :=
  ⟨[("vercel.json", "config"),
    ("requirements-vercel.txt", "fastapi"),
    ("README-vercel.md", "documentation"),
    ("example-questions.txt", "What is the GDP?")], 0⟩

/-- A `json.load` behaviour that always reports a decode failure. -/
def jsonLoadFail : String → Except String Json :=
  fun _ => Except.error "Expecting value: line 1 column 1 (char 0)"

/-! ## Helper lemmas about the file-system model -/

theorem fsRead_fsWrite_self (fs : FSState) (p c : String) :
    fsRead (fsWrite fs p c) p = some c := by
  simp [fsRead, fsWrite, List.find?]

theorem fsRead_create (fs : FSState) :
    fsRead (create_test_questions_file fs).2 (create_test_questions_file fs).1 =
      some questions_content := by
  simp [create_test_questions_file, fsRead, fsWrite, List.find?]

theorem find?_filter_self_eq_none (l : List (String × String)) (p : String) :
    (l.filter (fun e => e.1 != p)).find? (fun e => e.1 == p) = none := by
  induction l with
  | nil => rfl
  | cons a l ih =>
    by_cases h : a.1 = p
    · simp [List.filter_cons, h, ih]
    · simp [List.filter_cons, List.find?, h, ih]

theorem fsExists_fsRemove_self (fs : FSState) (p : String) :
    fsExists (fsRemove fs p) p = false := by
  simp [fsExists, fsRead, fsRemove, find?_filter_self_eq_none]

theorem fsExists_cleanupQuestionsFile (fs : FSState) (p : String) :
    fsExists (cleanupQuestionsFile fs p) p = false := by
  unfold cleanupQuestionsFile os_unlink
  cases h : fsExists fs p with
  | true => simp [h, fsExists_fsRemove_self]
  | false => simp [h]

theorem cleanup_create (fs : FSState) :
    cleanupQuestionsFile (create_test_questions_file fs).2 (create_test_questions_file fs).1 =
      ⟨fs.files.filter (fun e => e.1 != tmpPath fs.tempCounter), fs.tempCounter + 1⟩ := by
  unfold cleanupQuestionsFile os_unlink
  have hex : fsExists (create_test_questions_file fs).2 (create_test_questions_file fs).1 = true := by
    simp [fsExists, fsRead_create]
  rw [if_pos (by simp [hex])]
  simp [create_test_questions_file, fsRemove, fsWrite, List.filter_cons, List.filter_filter]

/-! ## World effect of each probe -/

theorem test_health_endpoint_snd (base_url : String) (w : World) :
    (test_health_endpoint base_url w).2 =
      { w with clock := w.clock + w.lat (HttpRequest.get (base_url ++ "/health") 30),
               calls := w.calls ++ [HttpRequest.get (base_url ++ "/health") 30] } := by
  unfold test_health_endpoint httpCall
  dsimp only
  cases w.net (HttpRequest.get (base_url ++ "/health") 30) with
  | exn e => rfl
  | resp code reason body =>
    dsimp only
    cases raise_for_status code reason (base_url ++ "/health") with
    | error e => rfl
    | ok u => cases body <;> rfl

theorem test_capabilities_endpoint_snd (base_url : String) (w : World) :
    (test_capabilities_endpoint base_url w).2 =
      { w with
          clock := w.clock + w.lat (HttpRequest.get (base_url ++ "/api/workflow-capabilities") 30),
          calls := w.calls ++ [HttpRequest.get (base_url ++ "/api/workflow-capabilities") 30] } := by
  unfold test_capabilities_endpoint httpCall
  dsimp only
  cases w.net (HttpRequest.get (base_url ++ "/api/workflow-capabilities") 30) with
  | exn e => rfl
  | resp code reason body =>
    dsimp only
    cases raise_for_status code reason (base_url ++ "/api/workflow-capabilities") with
    | error e => rfl
    | ok u => cases body <;> rfl

theorem test_main_api_endpoint_snd (base_url : String) (w : World) :
    (test_main_api_endpoint base_url w).2 =
      { w with
          fs := ⟨w.fs.files.filter (fun e => e.1 != tmpPath w.fs.tempCounter),
                 w.fs.tempCounter + 1⟩,
          clock := w.clock + w.lat (mainRequest base_url questions_content),
          calls := w.calls ++ [mainRequest base_url questions_content] } := by
  unfold test_main_api_endpoint httpCall
  dsimp only
  rw [fsRead_create]
  dsimp only
  have hclean := cleanup_create w.fs
  cases w.net (mainRequest base_url questions_content) with
  | exn e => simp [hclean]
  | resp code reason body =>
    dsimp only
    cases raise_for_status code reason (base_url ++ "/api/") with
    | error e => simp [hclean]
    | ok u => cases body <;> simp [hclean]

/-! ## Probe results depend only on the network behaviour -/

theorem test_health_endpoint_fst_congr (base_url : String) (w w' : World)
    (h : w.net = w'.net) :
    (test_health_endpoint base_url w).1 = (test_health_endpoint base_url w').1 := by
  unfold test_health_endpoint httpCall
  dsimp only
  rw [h]
  cases w'.net (HttpRequest.get (base_url ++ "/health") 30) with
  | exn e => rfl
  | resp code reason body =>
    dsimp only
    cases raise_for_status code reason (base_url ++ "/health") with
    | error e => rfl
    | ok u => cases body <;> rfl

theorem test_capabilities_endpoint_fst_congr (base_url : String) (w w' : World)
    (h : w.net = w'.net) :
    (test_capabilities_endpoint base_url w).1 = (test_capabilities_endpoint base_url w').1 := by
  unfold test_capabilities_endpoint httpCall
  dsimp only
  rw [h]
  cases w'.net (HttpRequest.get (base_url ++ "/api/workflow-capabilities") 30) with
  | exn e => rfl
  | resp code reason body =>
    dsimp only
    cases raise_for_status code reason (base_url ++ "/api/workflow-capabilities") with
    | error e => rfl
    | ok u => cases body <;> rfl

theorem test_main_api_endpoint_fst_congr (base_url : String) (w w' : World)
    (h : w.net = w'.net) :
    (test_main_api_endpoint base_url w).1 = (test_main_api_endpoint base_url w').1 := by
  unfold test_main_api_endpoint httpCall
  dsimp only
  rw [fsRead_create, fsRead_create]
  dsimp only
  rw [h]
  cases w'.net (mainRequest base_url questions_content) with
  | exn e => rfl
  | resp code reason body =>
    dsimp only
    cases raise_for_status code reason (base_url ++ "/api/") with
    | error e => rfl
    | ok u => cases body <;> rfl

/-! ## World effect and result shape of the environment runners -/

theorem test_local_server_snd (w : World) :
    (test_local_server w).2 =
      { w with
          fs := ⟨w.fs.files.filter (fun e => e.1 != tmpPath w.fs.tempCounter),
                 w.fs.tempCounter + 1⟩,
          clock := w.clock + w.lat (HttpRequest.get "http://localhost:8000/health" 30)
                    + w.lat (HttpRequest.get "http://localhost:8000/api/workflow-capabilities" 30)
                    + w.lat (mainRequest "http://localhost:8000" questions_content),
          calls := w.calls ++ [HttpRequest.get "http://localhost:8000/health" 30,
                    HttpRequest.get "http://localhost:8000/api/workflow-capabilities" 30,
                    mainRequest "http://localhost:8000" questions_content] } := by
  unfold test_local_server
  dsimp only
  simp [test_health_endpoint_snd, test_capabilities_endpoint_snd, test_main_api_endpoint_snd]

theorem test_vercel_deployment_snd (u : String) (w : World) :
    (test_vercel_deployment u w).2 =
      { w with
          fs := ⟨w.fs.files.filter (fun e => e.1 != tmpPath w.fs.tempCounter),
                 w.fs.tempCounter + 1⟩,
          clock := w.clock + w.lat (HttpRequest.get (u ++ "/health") 30)
                    + w.lat (HttpRequest.get (u ++ "/api/workflow-capabilities") 30)
                    + w.lat (mainRequest u questions_content),
          calls := w.calls ++ [HttpRequest.get (u ++ "/health") 30,
                    HttpRequest.get (u ++ "/api/workflow-capabilities") 30,
                    mainRequest u questions_content] } := by
  unfold test_vercel_deployment
  dsimp only
  simp [test_health_endpoint_snd, test_capabilities_endpoint_snd, test_main_api_endpoint_snd]

theorem test_vercel_deployment_duration (u : String) (w : World) :
    (test_vercel_deployment u w).1.duration =
      some (w.lat (mainRequest u questions_content)) := by
  unfold test_vercel_deployment
  dsimp only
  simp [test_health_endpoint_snd, test_capabilities_endpoint_snd, test_main_api_endpoint_snd,
    Nat.add_sub_cancel_left]

theorem test_vercel_deployment_fst_congr (u : String) (w w' : World)
    (hnet : w.net = w'.net) (hlat : w.lat = w'.lat) :
    (test_vercel_deployment u w).1 = (test_vercel_deployment u w').1 := by
  unfold test_vercel_deployment
  dsimp only
  congr 1
  · exact test_health_endpoint_fst_congr u w w' hnet
  · apply test_capabilities_endpoint_fst_congr
    simp [test_health_endpoint_snd, hnet]
  · apply test_main_api_endpoint_fst_congr
    simp [test_health_endpoint_snd, test_capabilities_endpoint_snd, hnet]
  · simp [test_health_endpoint_snd, test_capabilities_endpoint_snd, test_main_api_endpoint_snd,
      Nat.add_sub_cancel_left, hlat]

/-! ## Helper lemmas about the summary aggregation -/

theorem allDictSuccess_eq (b : EnvironmentBundle) :
    allDictSuccess b =
      (b.health.status == "success" && (b.capabilities.status == "success"
        && b.main_api.status == "success")) := by
  cases hd : b.duration <;>
    simp [allDictSuccess, EnvironmentBundle.dictValues, hd, Bool.and_assoc]

theorem localVerdict_eq_true_iff (results : Results) :
    localVerdict results = true ↔
      ∃ b, results.localRes = some b ∧ b.health.status = "success"
        ∧ b.capabilities.status = "success" ∧ b.main_api.status = "success" := by
  cases hr : results.localRes <;> simp [localVerdict, hr, allDictSuccess_eq]

/-! ## Helper lemmas about the validator -/

theorem foldl_missing_mem (l : List (String × String)) (fs : FSState)
    (acc : List String) (p : String) :
    (p ∈ l.foldl (fun acc fd => if fsExists fs fd.1 then acc else acc ++ [fd.1]) acc) ↔
      p ∈ acc ∨ (p ∈ l.map Prod.fst ∧ fsExists fs p = false) := by
  induction l generalizing acc with
  | nil => simp
  | cons a l ih =>
    simp only [List.foldl_cons, List.map_cons, List.mem_cons]
    by_cases h : fsExists fs a.1 = true
    · rw [if_pos h, ih]
      constructor
      · rintro (hacc | ⟨hmem, hex⟩)
        · exact Or.inl hacc
        · exact Or.inr ⟨Or.inr hmem, hex⟩
      · rintro (hacc | ⟨hp | hmem, hex⟩)
        · exact Or.inl hacc
        · rw [hp] at hex; rw [h] at hex; cases hex
        · exact Or.inr ⟨hmem, hex⟩
    · rw [if_neg h, ih]
      have h' : fsExists fs a.1 = false := by
        cases hx : fsExists fs a.1
        · rfl
        · exact absurd hx h
      constructor
      · rintro (hacc | ⟨hmem, hex⟩)
        · rcases List.mem_append.mp hacc with hacc' | hp
          · exact Or.inl hacc'
          · rcases List.mem_singleton.mp hp with hp'
            exact Or.inr ⟨Or.inl hp', by rw [hp']; exact h'⟩
        · exact Or.inr ⟨Or.inr hmem, hex⟩
      · rintro (hacc | ⟨hp | hmem, hex⟩)
        · exact Or.inl (List.mem_append.mpr (Or.inl hacc))
        · exact Or.inl (List.mem_append.mpr (Or.inr (List.mem_singleton.mpr hp)))
        · exact Or.inr ⟨hmem, hex⟩

theorem foldl_missing_eq_nil (l : List (String × String)) (fs : FSState)
    (acc : List String) :
    (l.foldl (fun acc fd => if fsExists fs fd.1 then acc else acc ++ [fd.1]) acc = []) ↔
      acc = [] ∧ ∀ fd ∈ l, fsExists fs fd.1 = true := by
  induction l generalizing acc with
  | nil => simp
  | cons a l ih =>
    simp only [List.foldl_cons, List.mem_cons]
    by_cases h : fsExists fs a.1 = true
    · rw [if_pos h, ih]
      constructor
      · rintro ⟨hacc, hall⟩
        exact ⟨hacc, fun fd hfd => by
          rcases hfd with hfd | hfd
          · rw [hfd]; exact h
          · exact hall fd hfd⟩
      · rintro ⟨hacc, hall⟩
        exact ⟨hacc, fun fd hfd => hall fd (Or.inr hfd)⟩
    · rw [if_neg h, ih]
      constructor
      · rintro ⟨hacc, _⟩
        exact absurd hacc (by simp)
      · rintro ⟨hacc, hall⟩
        exact absurd (hall a (Or.inl rfl)) h

theorem configCheckOf_spec_of_safe (jsonLoad : String → Except String Json) (fs : FSState)
    (hsafe : ∀ text config, fsRead fs "vercel.json" = some text →
      jsonLoad text = Except.ok config → ∀ k, ∃ b, pyIn k config = Except.ok b) :
    ∃ cc, configCheckOf jsonLoad fs = Except.ok cc
      ∧ (fsRead fs "vercel.json" = none → cc = ConfigCheck.fileNotFound)
      ∧ (∀ text m, fsRead fs "vercel.json" = some text → jsonLoad text = Except.error m →
          cc = ConfigCheck.invalidJson m)
      ∧ (∀ text config, fsRead fs "vercel.json" = some text →
          jsonLoad text = Except.ok config →
          ∃ hb, cc = ConfigCheck.valid hb
            ∧ (hb = true ↔ pyIn "builds" config = Except.ok true
                ∧ pyIn "routes" config = Except.ok true)) := by
  unfold configCheckOf
  cases hv : fsRead fs "vercel.json" with
  | none =>
    refine ⟨ConfigCheck.fileNotFound, rfl, fun _ => rfl, ?_, ?_⟩
    · intro text m htext _
      cases htext
    · intro text config htext _
      cases htext
  | some text =>
    dsimp only
    cases hj : jsonLoad text with
    | error m =>
      dsimp only
      refine ⟨ConfigCheck.invalidJson m, rfl, ?_, ?_, ?_⟩
      · intro hnone; cases hnone
      · intro text' m' htext hj'
        injection htext with htext'
        rw [← htext'] at hj'
        rw [hj] at hj'
        injection hj' with hm
        rw [hm]
      · intro text' config htext hj'
        injection htext with htext'
        rw [← htext'] at hj'
        rw [hj] at hj'
        cases hj'
    | ok config =>
      dsimp only
      obtain ⟨b, hb⟩ := hsafe text config hv hj "builds"
      rw [hb]
      have hvalid : ∀ hbv : Bool,
          (hbv = true ↔ pyIn "builds" config = Except.ok true
            ∧ pyIn "routes" config = Except.ok true) →
          ∀ text' config', (some text : Option String) = some text' →
            jsonLoad text' = Except.ok config' →
            ∃ hb', ConfigCheck.valid hbv = ConfigCheck.valid hb'
              ∧ (hb' = true ↔ pyIn "builds" config' = Except.ok true
                  ∧ pyIn "routes" config' = Except.ok true) := by
        intro hbv hiff text' config' htext hj'
        injection htext with htext'
        rw [← htext'] at hj'
        rw [hj] at hj'
        injection hj' with hc
        rw [← hc]
        exact ⟨hbv, rfl, hiff⟩
      cases b with
      | false =>
        refine ⟨ConfigCheck.valid false, rfl, ?_, ?_, ?_⟩
        · intro hnone; cases hnone
        · intro text' m' htext hj'
          injection htext with htext'
          rw [← htext'] at hj'
          rw [hj] at hj'
          cases hj'
        · refine hvalid false ?_
          constructor
          · intro hff; cases hff
          · rintro ⟨hb1, _⟩
            rw [hb] at hb1
            injection hb1
      | true =>
        obtain ⟨b2, hb2⟩ := hsafe text config hv hj "routes"
        rw [hb2]
        refine ⟨ConfigCheck.valid b2, rfl, ?_, ?_, ?_⟩
        · intro hnone; cases hnone
        · intro text' m' htext hj'
          injection htext with htext'
          rw [← htext'] at hj'
          rw [hj] at hj'
          cases hj'
        · refine hvalid b2 ?_
          constructor
          · intro hb2t
            rw [hb2t] at hb2
            exact ⟨hb, hb2⟩
          · rintro ⟨_, hr⟩
            rw [hb2] at hr
            injection hr

theorem validate_eq_ok (jsonLoad : String → Except String Json) (fs : FSState)
    (cc : ConfigCheck) (hcc : configCheckOf jsonLoad fs = Except.ok cc) :
    validate_vercel_files jsonLoad fs = Except.ok
      ⟨required_files.foldl
          (fun acc fd => if fsExists fs fd.1 then acc else acc ++ [fd.1]) [],
        cc,
        (match fsRead fs "api/index.py" with
         | none => none
         | some content =>
           some (required_imports.foldl
             (fun acc imp => if strContains content imp then acc else acc ++ [imp]) [])),
        (required_files.foldl
          (fun acc fd => if fsExists fs fd.1 then acc else acc ++ [fd.1]) []).isEmpty⟩ := by
  unfold validate_vercel_files
  rw [hcc]
  dsimp only
  cases hie : (required_files.foldl
      (fun acc fd => if fsExists fs fd.1 then acc else acc ++ [fd.1])
      ([] : List String)).isEmpty with
  | true => simp
  | false => simp

theorem raise_for_status_ok_of_2xx (code : Nat) (reason url : String)
    (h1 : 200 ≤ code) (h2 : code < 300) :
    raise_for_status code reason url = Except.ok () := by
  unfold raise_for_status
  rw [if_neg (by omega), if_neg (by omega)]

/-! ## Claim theorems -/

/-- C1: for every probe function and every base URL, an exception
raised inside the try block (transport error on the call itself, an
`HTTPError` from `raise_for_status`, or a JSON decode failure) is
caught and returned as a dictionary with status "error" and `error` the
stringified exception, never propagated; a 2xx response with a valid
JSON body is returned as status "success" with `data` the decoded
body. -/
theorem probe_uniform_result_contract (base_url : String) (w : World) :
    ((∀ e, w.net (HttpRequest.get (base_url ++ "/health") 30) = HttpOutcome.exn e →
      (test_health_endpoint base_url w).1 = ⟨"error", none, some e⟩)
    ∧ (∀ code reason body e,
        w.net (HttpRequest.get (base_url ++ "/health") 30) = HttpOutcome.resp code reason body →
        raise_for_status code reason (base_url ++ "/health") = Except.error e →
        (test_health_endpoint base_url w).1 = ⟨"error", none, some e⟩)
    ∧ (∀ code reason e,
        w.net (HttpRequest.get (base_url ++ "/health") 30)
          = HttpOutcome.resp code reason (Except.error e) →
        raise_for_status code reason (base_url ++ "/health") = Except.ok () →
        (test_health_endpoint base_url w).1 = ⟨"error", none, some e⟩)
    ∧ (∀ code reason j,
        w.net (HttpRequest.get (base_url ++ "/health") 30)
          = HttpOutcome.resp code reason (Except.ok j) →
        200 ≤ code → code < 300 →
        (test_health_endpoint base_url w).1 = ⟨"success", some j, none⟩))
    ∧ ((∀ e, w.net (HttpRequest.get (base_url ++ "/api/workflow-capabilities") 30)
          = HttpOutcome.exn e →
      (test_capabilities_endpoint base_url w).1 = ⟨"error", none, some e⟩)
    ∧ (∀ code reason body e,
        w.net (HttpRequest.get (base_url ++ "/api/workflow-capabilities") 30)
          = HttpOutcome.resp code reason body →
        raise_for_status code reason (base_url ++ "/api/workflow-capabilities")
          = Except.error e →
        (test_capabilities_endpoint base_url w).1 = ⟨"error", none, some e⟩)
    ∧ (∀ code reason e,
        w.net (HttpRequest.get (base_url ++ "/api/workflow-capabilities") 30)
          = HttpOutcome.resp code reason (Except.error e) →
        raise_for_status code reason (base_url ++ "/api/workflow-capabilities")
          = Except.ok () →
        (test_capabilities_endpoint base_url w).1 = ⟨"error", none, some e⟩)
    ∧ (∀ code reason j,
        w.net (HttpRequest.get (base_url ++ "/api/workflow-capabilities") 30)
          = HttpOutcome.resp code reason (Except.ok j) →
        200 ≤ code → code < 300 →
        (test_capabilities_endpoint base_url w).1 = ⟨"success", some j, none⟩))
    ∧ ((∀ e, w.net (mainRequest base_url questions_content) = HttpOutcome.exn e →
      (test_main_api_endpoint base_url w).1 = ⟨"error", none, some e⟩)
    ∧ (∀ code reason body e,
        w.net (mainRequest base_url questions_content) = HttpOutcome.resp code reason body →
        raise_for_status code reason (base_url ++ "/api/") = Except.error e →
        (test_main_api_endpoint base_url w).1 = ⟨"error", none, some e⟩)
    ∧ (∀ code reason e,
        w.net (mainRequest base_url questions_content)
          = HttpOutcome.resp code reason (Except.error e) →
        raise_for_status code reason (base_url ++ "/api/") = Except.ok () →
        (test_main_api_endpoint base_url w).1 = ⟨"error", none, some e⟩)
    ∧ (∀ code reason j,
        w.net (mainRequest base_url questions_content)
          = HttpOutcome.resp code reason (Except.ok j) →
        200 ≤ code → code < 300 →
        (test_main_api_endpoint base_url w).1 = ⟨"success", some j, none⟩)) := by
  refine ⟨⟨?_, ?_, ?_, ?_⟩, ⟨?_, ?_, ?_, ?_⟩, ⟨?_, ?_, ?_, ?_⟩⟩
  · intro e he
    simp [test_health_endpoint, httpCall, he]
  · intro code reason body e hn hr
    simp [test_health_endpoint, httpCall, hn, hr]
  · intro code reason e hn hr
    simp [test_health_endpoint, httpCall, hn, hr]
  · intro code reason j hn h1 h2
    simp [test_health_endpoint, httpCall, hn,
      raise_for_status_ok_of_2xx code reason (base_url ++ "/health") h1 h2]
  · intro e he
    simp [test_capabilities_endpoint, httpCall, he]
  · intro code reason body e hn hr
    simp [test_capabilities_endpoint, httpCall, hn, hr]
  · intro code reason e hn hr
    simp [test_capabilities_endpoint, httpCall, hn, hr]
  · intro code reason j hn h1 h2
    simp [test_capabilities_endpoint, httpCall, hn,
      raise_for_status_ok_of_2xx code reason (base_url ++ "/api/workflow-capabilities") h1 h2]
  · intro e he
    simp [test_main_api_endpoint, httpCall, fsRead_create, he]
  · intro code reason body e hn hr
    simp [test_main_api_endpoint, httpCall, fsRead_create, hn, hr]
  · intro code reason e hn hr
    simp [test_main_api_endpoint, httpCall, fsRead_create, hn, hr]
  · intro code reason j hn h1 h2
    simp [test_main_api_endpoint, httpCall, fsRead_create, hn,
      raise_for_status_ok_of_2xx code reason (base_url ++ "/api/") h1 h2]

/-- Witness for C1: in a world where every call raises a connection
error, the health probe returns the error dictionary; in a world where
every call returns 200 with a JSON body, the main probe returns the
success dictionary with the decoded body. -/
theorem probe_uniform_result_contract_witness :
    (test_health_endpoint "http://localhost:8000" w0).1
        = ⟨"error", none, some "Connection refused"⟩
    ∧ (test_main_api_endpoint "http://localhost:8000" wOk).1
        = ⟨"success", some okBody, none⟩ :=
  ⟨(probe_uniform_result_contract "http://localhost:8000" w0).1.1
      "Connection refused" rfl,
   (probe_uniform_result_contract "http://localhost:8000" wOk).2.2.2.2.2
      200 "OK" okBody rfl (by decide) (by decide)⟩

/-- C2: on every exit path of `test_main_api_endpoint` the temporary
questions file created by `create_test_questions_file` no longer exists
on the file system after the function returns; the cleanup handler
itself always removes the file when present and swallows an
`os.unlink` failure, returning unchanged state instead of raising. -/
theorem main_probe_cleanup_guarantee (base_url : String) (w : World) :
    fsExists (test_main_api_endpoint base_url w).2.fs
        (create_test_questions_file w.fs).1 = false
    ∧ (∀ fs p, fsExists (cleanupQuestionsFile fs p) p = false)
    ∧ (∀ fs p e, os_unlink fs p = Except.error e → cleanupQuestionsFile fs p = fs) := by
  refine ⟨?_, ?_, ?_⟩
  · rw [test_main_api_endpoint_snd]
    dsimp only [create_test_questions_file]
    simp [fsExists, fsRead, find?_filter_self_eq_none]
  · exact fun fs p => fsExists_cleanupQuestionsFile fs p
  · intro fs p e h
    unfold cleanupQuestionsFile
    rw [h]

/-- Witness for C2: the cleanup facts evaluated at a concrete world and
at a file system in which the deletion target is already absent. -/
theorem main_probe_cleanup_guarantee_witness :
    fsExists (test_main_api_endpoint "http://localhost:8000" w0).2.fs (tmpPath 0) = false
    ∧ cleanupQuestionsFile fs0 "/tmp/ghost.txt" = fs0 :=
  ⟨(main_probe_cleanup_guarantee "http://localhost:8000" w0).1,
   (main_probe_cleanup_guarantee "http://localhost:8000" w0).2.2 fs0 "/tmp/ghost.txt"
      ("FileNotFoundError: " ++ "/tmp/ghost.txt") rfl⟩

/-- C6: every result returned by any of the three probes has exactly
one of `data`/`error` populated, determined by `status`: a "success"
result carries decoded data and no error, an "error" result carries an
error string and no data. -/
theorem probe_result_invariant (base_url : String) (w : World) :
    ((test_health_endpoint base_url w).1.status = "success"
        ∧ (∃ j, (test_health_endpoint base_url w).1.data = some j)
        ∧ (test_health_endpoint base_url w).1.error = none
      ∨ (test_health_endpoint base_url w).1.status = "error"
        ∧ (test_health_endpoint base_url w).1.data = none
        ∧ (∃ e, (test_health_endpoint base_url w).1.error = some e))
    ∧ ((test_capabilities_endpoint base_url w).1.status = "success"
        ∧ (∃ j, (test_capabilities_endpoint base_url w).1.data = some j)
        ∧ (test_capabilities_endpoint base_url w).1.error = none
      ∨ (test_capabilities_endpoint base_url w).1.status = "error"
        ∧ (test_capabilities_endpoint base_url w).1.data = none
        ∧ (∃ e, (test_capabilities_endpoint base_url w).1.error = some e))
    ∧ ((test_main_api_endpoint base_url w).1.status = "success"
        ∧ (∃ j, (test_main_api_endpoint base_url w).1.data = some j)
        ∧ (test_main_api_endpoint base_url w).1.error = none
      ∨ (test_main_api_endpoint base_url w).1.status = "error"
        ∧ (test_main_api_endpoint base_url w).1.data = none
        ∧ (∃ e, (test_main_api_endpoint base_url w).1.error = some e)) := by
  refine ⟨?_, ?_, ?_⟩
  · unfold test_health_endpoint httpCall
    dsimp only
    cases w.net (HttpRequest.get (base_url ++ "/health") 30) with
    | exn e => exact Or.inr ⟨rfl, rfl, e, rfl⟩
    | resp code reason body =>
      dsimp only
      cases raise_for_status code reason (base_url ++ "/health") with
      | error e => exact Or.inr ⟨rfl, rfl, e, rfl⟩
      | ok u =>
        cases body with
        | error e => exact Or.inr ⟨rfl, rfl, e, rfl⟩
        | ok j => exact Or.inl ⟨rfl, ⟨j, rfl⟩, rfl⟩
  · unfold test_capabilities_endpoint httpCall
    dsimp only
    cases w.net (HttpRequest.get (base_url ++ "/api/workflow-capabilities") 30) with
    | exn e => exact Or.inr ⟨rfl, rfl, e, rfl⟩
    | resp code reason body =>
      dsimp only
      cases raise_for_status code reason (base_url ++ "/api/workflow-capabilities") with
      | error e => exact Or.inr ⟨rfl, rfl, e, rfl⟩
      | ok u =>
        cases body with
        | error e => exact Or.inr ⟨rfl, rfl, e, rfl⟩
        | ok j => exact Or.inl ⟨rfl, ⟨j, rfl⟩, rfl⟩
  · unfold test_main_api_endpoint httpCall
    dsimp only
    rw [fsRead_create]
    dsimp only
    cases w.net (mainRequest base_url questions_content) with
    | exn e => exact Or.inr ⟨rfl, rfl, e, rfl⟩
    | resp code reason body =>
      dsimp only
      cases raise_for_status code reason (base_url ++ "/api/") with
      | error e => exact Or.inr ⟨rfl, rfl, e, rfl⟩
      | ok u =>
        cases body with
        | error e => exact Or.inr ⟨rfl, rfl, e, rfl⟩
        | ok j => exact Or.inl ⟨rfl, ⟨j, rfl⟩, rfl⟩

/-- C5: both environment runners issue exactly the three probe calls
Health, Capabilities, Main, in that order, for every world - in
particular regardless of earlier probes returning "error" - and each
probe result appears in the returned bundle; the local runner targets
http://localhost:8000 and its bundle has no duration field. -/
theorem runners_fixed_probe_sequence (w : World) (url : String) :
    ((test_local_server w).2.calls
        = w.calls ++ [HttpRequest.get "http://localhost:8000/health" 30,
            HttpRequest.get "http://localhost:8000/api/workflow-capabilities" 30,
            mainRequest "http://localhost:8000" questions_content])
    ∧ (test_local_server w).1.health = (test_health_endpoint "http://localhost:8000" w).1
    ∧ (test_local_server w).1.capabilities
        = (test_capabilities_endpoint "http://localhost:8000"
            (test_health_endpoint "http://localhost:8000" w).2).1
    ∧ (test_local_server w).1.main_api
        = (test_main_api_endpoint "http://localhost:8000"
            (test_capabilities_endpoint "http://localhost:8000"
              (test_health_endpoint "http://localhost:8000" w).2).2).1
    ∧ (test_local_server w).1.duration = none
    ∧ ((test_vercel_deployment url w).2.calls
        = w.calls ++ [HttpRequest.get (url ++ "/health") 30,
            HttpRequest.get (url ++ "/api/workflow-capabilities") 30,
            mainRequest url questions_content])
    ∧ (test_vercel_deployment url w).1.health = (test_health_endpoint url w).1
    ∧ (test_vercel_deployment url w).1.capabilities
        = (test_capabilities_endpoint url (test_health_endpoint url w).2).1
    ∧ (test_vercel_deployment url w).1.main_api
        = (test_main_api_endpoint url
            (test_capabilities_endpoint url (test_health_endpoint url w).2).2).1 := by
  refine ⟨?_, rfl, rfl, rfl, rfl, ?_, rfl, rfl, rfl⟩
  · rw [test_local_server_snd]
  · rw [test_vercel_deployment_snd]

/-- C7: the remote runner samples the wall clock only around the Main
probe call, so the recorded duration equals the latency of the main
request alone, independent of the health and capabilities latencies;
the summary prints the cold-start annotation exactly when a vercel
bundle is present, all its probes succeeded, and its recorded duration
exceeds 10 time units. -/
theorem vercel_duration_and_cold_start (url : String) (w : World) (results : Results) :
    (test_vercel_deployment url w).1.duration
        = some (w.lat (mainRequest url questions_content))
    ∧ (coldStartNoted results = true ↔
        ∃ b, results.vercelRes = some b
          ∧ b.health.status = "success" ∧ b.capabilities.status = "success"
          ∧ b.main_api.status = "success" ∧ 10 < b.duration.getD 0) := by
  refine ⟨test_vercel_deployment_duration url w, ?_⟩
  cases hr : results.vercelRes with
  | none => simp [coldStartNoted, hr]
  | some b => simp [coldStartNoted, hr, allDictSuccess_eq, and_assoc]

/-- Witness for C7: with zero network latency the recorded duration is
zero, and the cold-start annotation fires on a successful bundle whose
duration is 42. -/
theorem vercel_duration_and_cold_start_witness :
    (test_vercel_deployment "https://demo.example" w0).1.duration = some 0
    ∧ coldStartNoted resultsVercelOk = true :=
  ⟨(vercel_duration_and_cold_start "https://demo.example" w0 resultsVercelOk).1,
   (vercel_duration_and_cold_start "https://demo.example" w0 resultsVercelOk).2.mpr
      ⟨bundleOk, rfl, rfl, rfl, rfl, by decide⟩⟩

/-- C3: the summary prints the local success guidance exactly when a
local bundle is present and all three of its probe results have status
"success"; otherwise - including when some probe reports "error" - it
prints the local failure guidance. -/
theorem local_summary_verdict (results : Results) :
    (local_success_line ∈ next_steps_local_lines results ↔
      ∃ b, results.localRes = some b
        ∧ b.health.status = "success" ∧ b.capabilities.status = "success"
        ∧ b.main_api.status = "success")
    ∧ (local_failure_line ∈ next_steps_local_lines results ↔
      ¬ ∃ b, results.localRes = some b
        ∧ b.health.status = "success" ∧ b.capabilities.status = "success"
        ∧ b.main_api.status = "success")
    ∧ (∀ b, results.localRes = some b →
        (b.health.status = "error" ∨ b.capabilities.status = "error"
          ∨ b.main_api.status = "error") →
        local_failure_line ∈ next_steps_local_lines results) := by
  have hiff := localVerdict_eq_true_iff results
  refine ⟨?_, ?_, ?_⟩
  · rw [← hiff]
    unfold next_steps_local_lines
    cases hv : localVerdict results <;>
      simp [local_success_line, local_failure_line]
  · rw [← hiff]
    unfold next_steps_local_lines
    cases hv : localVerdict results <;>
      simp [local_success_line, local_failure_line]
  · intro b hb hdisj
    unfold next_steps_local_lines
    cases hv : localVerdict results with
    | false => simp
    | true =>
      exfalso
      obtain ⟨b', hb', h1, h2, h3⟩ := hiff.mp hv
      rw [hb] at hb'
      injection hb' with hbb
      rw [← hbb] at h1 h2 h3
      rcases hdisj with h | h | h
      · rw [h] at h1; exact absurd h1 (by decide)
      · rw [h] at h2; exact absurd h2 (by decide)
      · rw [h] at h3; exact absurd h3 (by decide)

/-- Witness for C3: an all-success local bundle selects the success
guidance line. -/
theorem local_summary_verdict_witness :
    local_success_line ∈ next_steps_local_lines resultsLocalOk :=
  (local_summary_verdict resultsLocalOk).1.mpr ⟨bundleLocalOk, rfl, rfl, rfl, rfl⟩

/-- C9: invoking the entry point with only `--vercel <url>` leaves no
local bundle in the results, yet the summary still takes the local
failure branch ("Local tests failed - fix issues before deploying"),
because the guidance condition requires a present, all-success local
bundle and falls to the failure branch in every other case. -/
theorem vercel_only_run_prints_local_failure (url : String) (w : World) :
    (mainRun ⟨false, some url, false⟩ w).1.localRes = none
    ∧ local_failure_line ∈ next_steps_local_lines (mainRun ⟨false, some url, false⟩ w).1
    ∧ local_success_line ∉ next_steps_local_lines (mainRun ⟨false, some url, false⟩ w).1 := by
  have hres : (mainRun ⟨false, some url, false⟩ w).1
      = ⟨none, some (test_vercel_deployment url w).1⟩ := rfl
  refine ⟨rfl, ?_, ?_⟩ <;>
    simp [hres, next_steps_local_lines, localVerdict, local_success_line, local_failure_line]

/-- Witness for C9: the vercel-only invocation evaluated at a concrete
URL and world. -/
theorem vercel_only_run_prints_local_failure_witness :
    (mainRun ⟨false, some "https://demo.example", false⟩ w0).1.localRes = none
    ∧ local_failure_line
        ∈ next_steps_local_lines (mainRun ⟨false, some "https://demo.example", false⟩ w0).1
    ∧ local_success_line
        ∉ next_steps_local_lines (mainRun ⟨false, some "https://demo.example", false⟩ w0).1 :=
  vercel_only_run_prints_local_failure "https://demo.example" w0

/-- C10: when both `--vercel <url>` and `--both` are given, the bundle
obtained for the caller-supplied URL is overwritten under the `vercel`
results key by the run against the hardcoded placeholder URL: the final
results do not depend on the supplied URL at all, and the stored vercel
bundle is the placeholder run's bundle. -/
theorem both_flag_overwrites_vercel_bundle (url₁ url₂ : String) (w : World) :
    (mainRun ⟨false, some url₁, true⟩ w).1 = (mainRun ⟨false, some url₂, true⟩ w).1
    ∧ (mainRun ⟨false, some url₁, true⟩ w).1.vercelRes
        = some (test_vercel_deployment example_url
            (test_vercel_deployment url₁ (test_local_server w).2).2).1 := by
  constructor
  · show (⟨some (test_local_server w).1,
        some (test_vercel_deployment example_url
          (test_vercel_deployment url₁ (test_local_server w).2).2).1⟩ : Results)
      = ⟨some (test_local_server w).1,
        some (test_vercel_deployment example_url
          (test_vercel_deployment url₂ (test_local_server w).2).2).1⟩
    have hb : (test_vercel_deployment example_url
          (test_vercel_deployment url₁ (test_local_server w).2).2).1
        = (test_vercel_deployment example_url
          (test_vercel_deployment url₂ (test_local_server w).2).2).1 := by
      apply test_vercel_deployment_fst_congr
      · rw [test_vercel_deployment_snd url₁ (test_local_server w).2,
          test_vercel_deployment_snd url₂ (test_local_server w).2]
      · rw [test_vercel_deployment_snd url₁ (test_local_server w).2,
          test_vercel_deployment_snd url₂ (test_local_server w).2]
    rw [hb]
  · rfl

/-- Witness for C10: the overwrite evaluated at two concrete URLs. -/
theorem both_flag_overwrites_vercel_bundle_witness :
    (mainRun ⟨false, some "https://a.example", true⟩ w0).1
        = (mainRun ⟨false, some "https://b.example", true⟩ w0).1
    ∧ (mainRun ⟨false, some "https://a.example", true⟩ w0).1.vercelRes
        = some (test_vercel_deployment example_url
            (test_vercel_deployment "https://a.example" (test_local_server w0).2).2).1 :=
  both_flag_overwrites_vercel_bundle "https://a.example" "https://b.example" w0

/-- C4 counterexample: with all six required files present but
vercel.json holding the valid scalar JSON document `5`, the membership
test `"builds" in config` raises an uncaught `TypeError`, so
`validate_vercel_files` does not return `True` even though no required
file is missing - refuting "returns True if and only if every required
file exists" and "the checks never affect the returned verdict". -/
theorem validator_scalar_config_counterexample :
    required_files.all (fun fd => fsExists fsScalarConfig fd.1) = true
    ∧ validate_vercel_files jsonLoadNum fsScalarConfig
        = Except.error "TypeError: argument of type int is not iterable" :=
  ⟨rfl, rfl⟩

/-- C4 (amended): provided the parsed vercel.json value - when the file
exists and parses - supports Python membership tests (it is an object,
array or string, so `pyIn` cannot raise), `validate_vercel_files`
returns a report whose verdict is `True` exactly when all six required
files exist, whose `missing_files` holds exactly the required paths
that do not exist, and whose verdict equals emptiness of
`missing_files`, so the config and import diagnostics never influence
it. -/
theorem validator_ready_iff_all_required_exist (jsonLoad : String → Except String Json)
    (fs : FSState)
    (hsafe : ∀ text config, fsRead fs "vercel.json" = some text →
      jsonLoad text = Except.ok config → ∀ k, ∃ b, pyIn k config = Except.ok b) :
    ∃ r, validate_vercel_files jsonLoad fs = Except.ok r
      ∧ (r.ready = true ↔ ∀ fd ∈ required_files, fsExists fs fd.1 = true)
      ∧ (∀ p, p ∈ r.missing_files ↔
          p ∈ required_files.map Prod.fst ∧ fsExists fs p = false)
      ∧ r.ready = r.missing_files.isEmpty := by
  obtain ⟨cc, hcc, _, _, _⟩ := configCheckOf_spec_of_safe jsonLoad fs hsafe
  refine ⟨_, validate_eq_ok jsonLoad fs cc hcc, ?_, ?_, rfl⟩
  · dsimp only
    rw [List.isEmpty_iff, foldl_missing_eq_nil]
    simp
  · intro p
    dsimp only
    rw [foldl_missing_mem]
    simp

/-- Witness for C4 (amended): with all six files present and an object
configuration carrying both sections, the validator returns ready. -/
theorem validator_ready_iff_all_required_exist_witness :
    ∃ r, validate_vercel_files jsonLoadObj fsAllPresent = Except.ok r ∧ r.ready = true := by
  obtain ⟨r, hr, hready, h1, h2⟩ :=
    validator_ready_iff_all_required_exist jsonLoadObj fsAllPresent
      (fun text config _ hj k => by
        injection hj with hc
        rw [← hc]
        exact ⟨_, rfl⟩)
  exact ⟨r, hr, hready.mpr (by decide)⟩

/-- C8 counterexample: with all six required files present and
vercel.json holding the valid JSON document `null`, the parse succeeds
but the section check raises an uncaught `TypeError` instead of
reporting section presence, and no readiness verdict is returned at
all - refuting the claimed three-outcome behaviour for every parse
result. -/
theorem validator_null_config_counterexample :
    fsRead fsNullConfig "vercel.json" = some "null"
    ∧ jsonLoadNull "null" = Except.ok Json.null
    ∧ validate_vercel_files jsonLoadNull fsNullConfig
        = Except.error "TypeError: argument of type NoneType is not iterable" :=
  ⟨rfl, rfl, rfl⟩

/-- C8 (amended): provided the parsed configuration value - when the
file exists and parses - supports Python membership tests, the config
check distinguishes its three outcomes (absent file; invalid JSON with
the decoder message, distinct from file-not-found; parsed, reporting
whether both `builds` and `routes` sections are present), and none of
these outcomes changes the returned readiness verdict, which always
equals emptiness of `missing_files`. -/
theorem validator_config_check_trichotomy (jsonLoad : String → Except String Json)
    (fs : FSState)
    (hsafe : ∀ text config, fsRead fs "vercel.json" = some text →
      jsonLoad text = Except.ok config → ∀ k, ∃ b, pyIn k config = Except.ok b) :
    ∃ r, validate_vercel_files jsonLoad fs = Except.ok r
      ∧ (fsRead fs "vercel.json" = none → r.configCheck = ConfigCheck.fileNotFound)
      ∧ (∀ text m, fsRead fs "vercel.json" = some text → jsonLoad text = Except.error m →
          r.configCheck = ConfigCheck.invalidJson m)
      ∧ (∀ text config, fsRead fs "vercel.json" = some text →
          jsonLoad text = Except.ok config →
          ∃ hb, r.configCheck = ConfigCheck.valid hb
            ∧ (hb = true ↔ pyIn "builds" config = Except.ok true
                ∧ pyIn "routes" config = Except.ok true))
      ∧ r.ready = r.missing_files.isEmpty := by
  obtain ⟨cc, hcc, h1, h2, h3⟩ := configCheckOf_spec_of_safe jsonLoad fs hsafe
  exact ⟨_, validate_eq_ok jsonLoad fs cc hcc, h1, h2, h3, rfl⟩

/-- Witness for C8 (amended): a present but undecodable vercel.json is
reported as invalid JSON, distinct from file-not-found. -/
theorem validator_config_check_trichotomy_witness :
    ∃ r, validate_vercel_files jsonLoadFail fsAllPresent = Except.ok r
      ∧ r.configCheck
          = ConfigCheck.invalidJson "Expecting value: line 1 column 1 (char 0)" := by
  obtain ⟨r, hr, _, h2, _, _⟩ :=
    validator_config_check_trichotomy jsonLoadFail fsAllPresent
      (fun text config _ hj k => by simp [jsonLoadFail] at hj)
  exact ⟨r, hr, h2 "config" "Expecting value: line 1 column 1 (char 0)" rfl rfl⟩
